import Mathlib

/-!
Shallow embedding of the indentation tree parser of
`plugins/module_utils/pacemaker_helper.py` (functions `_count_indentation`,
`_add_ansibilized_section`, `ansibilize_resource`), with Python run-time
exceptions modelled by an explicit error type.  Note on fidelity: the source
line `return {name: {'name':value,'value': _add_ansibilized_section(remainder,
next_depth) }` is missing one closing brace; the embedding renders the evident
dictionary `{name: {'name': value, 'value': <recursion>}}`.  The helper
`_count_indentation(line)` evaluates `re.search(r"^\s*", s)` where `s` is not
the parameter and is never assigned anywhere in the module: Python resolves
`s` in the module's global namespace at call time, so the call raises
`NameError` as shipped, and would measure the leading whitespace of the
global string `s` (not of `line`) if some caller injected such a global.  The
embedding therefore carries the global binding of `s` as an explicit
`Option String` argument (`none` in the module as shipped).
-/

/-- Python run-time exceptions that the parser module can raise:
`IndexError` from out-of-range list indexing, `NameError` from evaluating the
unbound global name `s`, `ValueError` from tuple-unpacking a list whose length
is not 2, and `AssertionError` from a failing `assert` statement. -/
inductive PyErr where
  | indexError
  | nameError
  | valueError
  | assertionError
  deriving DecidableEq, Repr

/-- Python values that the parser builds: strings and dictionaries (modelled
as association lists, which preserve the insertion order of `dict`). -/
inductive PyVal where
  | str : String → PyVal
  | dict : List (String × PyVal) → PyVal

/-- The character class of Python's regex `\s` on ASCII input: space, tab,
newline, carriage return, vertical tab and form feed. -/
def pyIsSpace (c : Char) : Bool :=
  c == ' ' || c == '\t' || c == '\n' || c == '\r' || c == '\x0b' || c == '\x0c'

/-- Splitting a character list on every occurrence of `sep`, keeping empty
groups, exactly as Python's `str.split(sep)` does for a one-character
separator: for example splitting `a::b` on `:` gives the three groups
`a`, the empty group, and `b`. -/
def splitOnChar (sep : Char) : List Char → List (List Char)
  | [] => [[]]
  | c :: cs =>
    let r := splitOnChar sep cs
    if c == sep then [] :: r
    else
      match r with
      | [] => [[c]]
      | g :: gs => (c :: g) :: gs

/-- Python's `s.split(sep)` for a one-character separator `sep`. -/
def pySplit (s : String) (sep : Char) : List String :=
  (splitOnChar sep s.data).map String.mk

/-- Boolean test that the first list is an initial segment of the second. -/
def listIsPrefixChars : List Char → List Char → Bool
  | [], _ => true
  | _ :: _, [] => false
  | p :: ps, c :: cs => p == c && listIsPrefixChars ps cs

/-- Python's `s.startswith(pre)`. -/
def pyStartswith (s pre : String) : Bool :=
  listIsPrefixChars pre.data s.data

/-- Python's string repetition `c * n` for a one-character string `c`. -/
def pyRepeat (c : Char) (n : Nat) : String :=
  String.mk (List.replicate n c)

/-- Embeds `_count_indentation` (pacemaker_helper.py lines 23-25), with the
module-global binding of the name `s` passed explicitly as `genv_s`.  The body
runs `match = re.search(r"^\s*", s); return 0 if not match else match.end()`:
evaluating the unbound name `s` raises `NameError` when `genv_s` is `none`
(the module as shipped never assigns `s`); when `s` is bound to a string, the
anchored search always matches and `match.end()` is the length of the leading
whitespace run of that global string, the parameter `line` being ignored. -/
def count_indentation_genv (genv_s : Option String) (line : String) : Except PyErr Nat :=
  match genv_s with
  | none => Except.error PyErr.nameError
  | some s => Except.ok (s.data.takeWhile pyIsSpace).length

/-- `_count_indentation` as it behaves in the module as shipped, where the
global name `s` is unbound. -/
def count_indentation (line : String) : Except PyErr Nat :=
  count_indentation_genv none line

/-- Embeds the statement `name, value = line.split(':')` (pacemaker_helper.py
line 33): Python splits on every colon and the two-name tuple unpacking raises
`ValueError` unless the split produced exactly two parts. -/
def splitNameValue (line : String) : Except PyErr (String × String) :=
  match pySplit line ':' with
  | [name, value] => Except.ok (name, value)
  | _ => Except.error PyErr.valueError

/-- Embeds `_add_ansibilized_section` (pacemaker_helper.py lines 27-37) with
the global binding of `s` passed through for `_count_indentation`.  Faithful
to Python's evaluation order: `resource_string_array[0]` raises `IndexError`
on an empty array; `resource_string_array[1]` (evaluated unconditionally to
compute `next_depth`, before any branch) raises `IndexError` on a one-element
array; then `_count_indentation` runs, then the `assert
line.startswith(' '*current_depth)`, then the split-unpack, then the branch on
`len(value) == 0`, each branch recursing on the tail `remainder`. -/
def add_ansibilized_section_genv (genv_s : Option String) :
    List String → Nat → Except PyErr PyVal
  | [], _ => Except.error PyErr.indexError
  | [_], _ => Except.error PyErr.indexError
  | line :: next :: rest, current_depth =>
    match count_indentation_genv genv_s next with
    | Except.error e => Except.error e
    | Except.ok next_depth =>
      if pyStartswith line (pyRepeat ' ' current_depth) then
        match splitNameValue line with
        | Except.error e => Except.error e
        | Except.ok (name, value) =>
          if value.length = 0 then
            match add_ansibilized_section_genv genv_s (next :: rest) next_depth with
            | Except.error e => Except.error e
            | Except.ok nested => Except.ok (PyVal.dict [(name, nested)])
          else
            match add_ansibilized_section_genv genv_s (next :: rest) next_depth with
            | Except.error e => Except.error e
            | Except.ok nested =>
              Except.ok (PyVal.dict [(name,
                PyVal.dict [("name", PyVal.str value), ("value", nested)])])
      else
        Except.error PyErr.assertionError

/-- `_add_ansibilized_section` in the module as shipped (global `s` unbound). -/
def add_ansibilized_section (resource_string_array : List String) (current_depth : Nat) :
    Except PyErr PyVal :=
  add_ansibilized_section_genv none resource_string_array current_depth

/-- Embeds `ansibilize_resource` (pacemaker_helper.py lines 39-40), with the
global binding of `s` explicit: split the input on newlines and descend from
depth 0. -/
def ansibilize_resource_genv (genv_s : Option String) (resource_string : String) :
    Except PyErr PyVal :=
  add_ansibilized_section_genv genv_s (pySplit resource_string '\n') 0

/-- `ansibilize_resource` in the module as shipped (global `s` unbound). -/
def ansibilize_resource (resource_string : String) : Except PyErr PyVal :=
  ansibilize_resource_genv none resource_string

/-- Fuel-indexed variant of `add_ansibilized_section_genv`, mirroring it
branch for branch; `none` signals fuel exhaustion.  Used to bound the
recursion depth by the number of input lines. -/
def add_ansibilized_section_fuel (genv_s : Option String) :
    Nat → List String → Nat → Option (Except PyErr PyVal)
  | 0, _, _ => none
  | _ + 1, [], _ => some (Except.error PyErr.indexError)
  | _ + 1, [_], _ => some (Except.error PyErr.indexError)
  | fuel + 1, line :: next :: rest, current_depth =>
    match count_indentation_genv genv_s next with
    | Except.error e => some (Except.error e)
    | Except.ok next_depth =>
      if pyStartswith line (pyRepeat ' ' current_depth) then
        match splitNameValue line with
        | Except.error e => some (Except.error e)
        | Except.ok (name, value) =>
          if value.length = 0 then
            match add_ansibilized_section_fuel genv_s fuel (next :: rest) next_depth with
            | none => none
            | some (Except.error e) => some (Except.error e)
            | some (Except.ok nested) => some (Except.ok (PyVal.dict [(name, nested)]))
          else
            match add_ansibilized_section_fuel genv_s fuel (next :: rest) next_depth with
            | none => none
            | some (Except.error e) => some (Except.error e)
            | some (Except.ok nested) =>
              some (Except.ok (PyVal.dict [(name,
                PyVal.dict [("name", PyVal.str value), ("value", nested)])]))
      else
        some (Except.error PyErr.assertionError)

/-- Claim C1: the claim says parsing the single leaf line `foo:bar` returns the
mapping of `foo` to `bar`; in fact `_add_ansibilized_section` unconditionally
evaluates `resource_string_array[1]` before branching, so on the one-line
array the call raises `IndexError` and `ansibilize_resource` never returns the
claimed mapping. -/
theorem ansibilize_single_leaf_raises :
    ansibilize_resource "foo:bar" = Except.error PyErr.indexError := rfl

/-- Claim C2: the claim says parsing a branch line `foo:` followed by the
deeper-indented leaf ` bar:baz` returns the nested branch shape; in fact the
first call invokes `_count_indentation` on the second line, whose body
evaluates the unbound global name `s`, so the parse raises `NameError` and no
tree is produced. -/
theorem ansibilize_two_level_raises :
    ansibilize_resource "foo:\n bar:baz" = Except.error PyErr.nameError := rfl

/-- Claim C3: `ansibilize_resource` never returns a value normally: on every input
string the parse ends in a raised exception, and whenever the line array has
fewer than two elements the unconditional reads of elements 0 and 1 raise
`IndexError` before any branch is taken. -/
theorem ansibilize_never_returns :
    (∀ s : String, ∃ e, ansibilize_resource s = Except.error e) ∧
    (∀ (arr : List String) (d : Nat), arr.length < 2 →
      ∃ e, add_ansibilized_section arr d = Except.error e) := by
  have key : ∀ (arr : List String) (d : Nat),
      ∃ e, add_ansibilized_section arr d = Except.error e := by
    intro arr d
    match arr with
    | [] => exact ⟨PyErr.indexError, rfl⟩
    | [x] => exact ⟨PyErr.indexError, rfl⟩
    | x :: y :: r => exact ⟨PyErr.nameError, rfl⟩
  exact ⟨fun s => key (pySplit s '\n') 0, fun arr d _ => key arr d⟩

/-- Witness for C3 at the concrete one-line array. -/
theorem ansibilize_never_returns_witness :
    ∃ e, add_ansibilized_section ["foo:bar"] 0 = Except.error e :=
  ansibilize_never_returns.2 ["foo:bar"] 0 (by decide)

/-- Claim C4: the claim says `_count_indentation` is a pure function of its `line`
parameter returning the leading-whitespace width; in fact its body searches in
`s`, a name that is not the parameter and is never assigned in the module, so
every call raises `NameError` regardless of `line` (first conjunct), and were
the global `s` bound, the result would measure the global string rather than
the `line` argument (second conjunct: two different lines, same result). -/
theorem count_indentation_ignores_line :
    (∀ line : String, count_indentation line = Except.error PyErr.nameError) ∧
    count_indentation_genv (some "  x") "abc" = count_indentation_genv (some "  x") "      zz" := by
  exact ⟨fun line => rfl, rfl⟩

/-- Claim C5: the claim says a line is split on the first colon only, so that
`time:12:30` yields the one name `time` and the one value `12:30`; in fact
line 33 runs `name, value = line.split(':')`, which splits on every colon and
raises `ValueError` when the line holds more than one colon. -/
theorem split_multi_colon_raises :
    splitNameValue "time:12:30" = Except.error PyErr.valueError := rfl

/-- Claim C6: the claim says a line with a non-empty value is a leaf that consumes
no input lines beyond itself; in fact the code always reads the line after it
(`IndexError` on the lone leaf line `a:1`, first conjunct), and the non-empty
branch recurses on the tail, as exhibited with the global `s` bound so that
execution reaches that branch: parsing `a:1` followed by `b:2` descends into
the tail of the leaf and fails there with `IndexError` (second conjunct). -/
theorem leaf_consumes_tail :
    ansibilize_resource "a:1" = Except.error PyErr.indexError ∧
    ansibilize_resource_genv (some "") "a:1\nb:2" = Except.error PyErr.indexError :=
  ⟨rfl, rfl⟩

/-- Claim C7: the claim says the branch line `foo:` with no following line raises
the distinct error `IncompleteSectionError`; in fact no such error class
exists in the module and the code raises a plain `IndexError` from the
unconditional read of `resource_string_array[1]`. -/
theorem branch_without_child_raises_index :
    ansibilize_resource "foo:" = Except.error PyErr.indexError := rfl

/-- Claim C8: the claim says `foo:` followed by the insufficiently indented
`bar:baz` raises the distinct error `StructureError`; in fact no such error
class exists in the module: as shipped the parse raises `NameError` from
`_count_indentation` (first conjunct), and even with the global `s` bound so
that execution reaches the depth assert, the assert passes at depth 0 and
the parse fails with a plain `IndexError` instead (second conjunct). -/
theorem depth_mismatch_raises_name :
    ansibilize_resource "foo:\nbar:baz" = Except.error PyErr.nameError ∧
    ansibilize_resource_genv (some "") "foo:\nbar:baz" = Except.error PyErr.indexError :=
  ⟨rfl, rfl⟩

/-- Claim C9: the claim says no parse call observes state outside its arguments; in
fact `_count_indentation`, called from every parse of two or more lines,
resolves the free name `s` in the module's global namespace: with `s` unbound
(the module as shipped) the call raises `NameError` (third conjunct), while a
global binding of `s` changes the result at the same arguments (first and
second conjuncts exhibit the two different outcomes). -/
theorem parse_reads_global_name :
    count_indentation_genv (some "  x") "abc" = Except.ok 2 ∧
    count_indentation_genv none "abc" = Except.error PyErr.nameError ∧
    ansibilize_resource "a:b\nc:d" = Except.error PyErr.nameError :=
  ⟨rfl, rfl, rfl⟩

/-- Claim C10: each recursive call of `_add_ansibilized_section` is on the strict
tail of its line array, so the recursion depth is bounded by the number of
input lines: any fuel exceeding the array length makes the fuel-indexed
variant agree with the total function, for every global binding of `s`. -/
theorem add_section_fuel_adequate (genv_s : Option String) (fuel : Nat) :
    ∀ (arr : List String) (current_depth : Nat), arr.length < fuel →
      add_ansibilized_section_fuel genv_s fuel arr current_depth =
        some (add_ansibilized_section_genv genv_s arr current_depth) := by
  induction fuel with
  | zero => intro arr d h; exact absurd h (Nat.not_lt_zero _)
  | succ f ih =>
    intro arr d h
    match arr with
    | [] => rfl
    | [x] => rfl
    | line :: next :: rest =>
      have hr : (next :: rest).length < f := by
        simp only [List.length_cons] at h ⊢
        omega
      have ihr : ∀ d2 : Nat,
          add_ansibilized_section_fuel genv_s f (next :: rest) d2 =
            some (add_ansibilized_section_genv genv_s (next :: rest) d2) :=
        fun d2 => ih (next :: rest) d2 hr
      cases hc : count_indentation_genv genv_s next with
      | error e =>
        simp [add_ansibilized_section_fuel, add_ansibilized_section_genv, hc]
      | ok nd =>
        cases hp : pyStartswith line (pyRepeat ' ' d) with
        | false =>
          simp [add_ansibilized_section_fuel, add_ansibilized_section_genv, hc, hp]
        | true =>
          cases hs : splitNameValue line with
          | error e =>
            simp [add_ansibilized_section_fuel, add_ansibilized_section_genv, hc, hp, hs]
          | ok nv =>
            obtain ⟨nm, vl⟩ := nv
            by_cases hv : vl.length = 0
            · cases hrec : add_ansibilized_section_genv genv_s (next :: rest) nd with
              | error e =>
                simp [add_ansibilized_section_fuel, add_ansibilized_section_genv,
                  hc, hp, hs, hv, ihr, hrec]
              | ok sec =>
                simp [add_ansibilized_section_fuel, add_ansibilized_section_genv,
                  hc, hp, hs, hv, ihr, hrec]
            · cases hrec : add_ansibilized_section_genv genv_s (next :: rest) nd with
              | error e =>
                simp [add_ansibilized_section_fuel, add_ansibilized_section_genv,
                  hc, hp, hs, hv, ihr, hrec]
              | ok sec =>
                simp [add_ansibilized_section_fuel, add_ansibilized_section_genv,
                  hc, hp, hs, hv, ihr, hrec]

/-- Witness for C10 at a concrete array, fuel one more than its length. -/
theorem add_section_fuel_adequate_witness :
    add_ansibilized_section_fuel none 2 ["a:b"] 0 =
      some (add_ansibilized_section_genv none ["a:b"] 0) :=
  add_section_fuel_adequate none 2 ["a:b"] 0 (by decide)
